import Mathlib

/-!
Verification of the Cosmos transaction decoder in
`rust/main/chains/hyperlane-cosmos/src/providers/cosmos/provider.rs`.

The decoder's pure logic (sender resolution, key normalization, contract
extraction, fee validation and normalization, gas-price derivation and the
hash-integrity checks of `get_txn_by_hash` / `get_block_by_hash`) is embedded
shallowly.  Calls into external crates (`cosmrs` protobuf decoding, the
`crypto` crate's secp256k1 decompression, `tendermint` key parsing, bech32
address derivation) are modelled as an explicit bundle of oracle functions
(`Externals`), so every theorem quantifies over the behavior of those
collaborators while the decoder's own control flow is fixed by the source.
-/

namespace CosmosDecoder

/-- Byte strings are sequences of bytes (values < 256 are not enforced; no
claim depends on the bound). -/
abbrev Bytes := List Nat

/-- Bech32 account identifiers (`cosmrs::AccountId`) compared by value. -/
abbrev AccountId := String

/-- 256-bit hashes (`H256`) as an opaque numeric identifier. -/
abbrev H256 := Nat

/-- `U256` arithmetic is modulo `2^256`. -/
def U256_MOD : Nat := 2 ^ 256

/-- `ATTO_EXPONENT`: exponent value for atto units (10^-18).  Source line 30. -/
def ATTO_EXPONENT : Nat := 18

/-- Injective public key type URL for protobuf `Any`.  Source line 33. -/
def INJECTIVE_PUBLIC_KEY_TYPE_URL : String :=
  "/injective.crypto.v1beta1.ethsecp256k1.PubKey"

/-- `cosmrs::crypto::PublicKey::ED25519_TYPE_URL`. -/
def ED25519_TYPE_URL : String := "/cosmos.crypto.ed25519.PubKey"

/-- `cosmrs::crypto::PublicKey::SECP256K1_TYPE_URL`. -/
def SECP256K1_TYPE_URL : String := "/cosmos.crypto.secp256k1.PubKey"

/-- The errors the decoder can surface (`ChainCommunicationError` /
`HyperlaneCosmosError` variants actually used by the embedded code). -/
inductive CosmosError where
  /-- `HyperlaneCosmosError::PublicKeyError` -/
  | publicKeyError (msg : String)
  /-- `HyperlaneCosmosError::SignerInfoError` -/
  | signerInfoError (msg : String)
  /-- `ChainCommunicationError::CustomError` -/
  | customError (msg : String)
  /-- `ChainCommunicationError::from_other_str` -/
  | fromOtherStr (msg : String)
  /-- error converted from an external crate (prost decode, address
  derivation, ...) carried opaquely -/
  | externalError (msg : String)
  deriving DecidableEq, Repr

/-- `cosmrs::crypto::PublicKey`: a decoded (standard) public key. -/
inductive PublicKey where
  | ed25519 (bytes : Bytes)
  | secp256k1 (bytes : Bytes)
  deriving DecidableEq, Repr

/-- `cosmrs::crypto::LegacyAminoMultisig` public key payload. -/
structure LegacyAminoMultisig where
  threshold : Nat
  public_keys : List PublicKey
  deriving DecidableEq, Repr

/-- `cosmrs::tx::SignerPublicKey`: the three key-encoding variants. -/
inductive SignerPublicKey where
  | single (pk : PublicKey)
  | legacyAminoMultisig (pk : LegacyAminoMultisig)
  | any (type_url : String) (value : Bytes)
  deriving DecidableEq, Repr

/-- `hyperlane_core::AccountAddressType`: the address-derivation style
(`Bitcoin` is the spec's StyleA, `Ethereum` the spec's StyleB). -/
inductive AccountAddressType where
  | bitcoin
  | ethereum
  deriving DecidableEq, Repr

/-- `cosmrs::tx::SignerInfo`: optional public key plus sequence number. -/
structure SignerInfo where
  public_key : Option SignerPublicKey
  sequence : Nat
  deriving DecidableEq, Repr

/-- `cosmrs::Coin`: denomination and (u128) amount. -/
structure Coin where
  denom : String
  amount : Nat
  deriving DecidableEq, Repr

/-- `cosmrs::tx::Fee`: fee coins, gas limit (u64) and optional payer. -/
structure Fee where
  amount : List Coin
  gas_limit : Nat
  payer : Option AccountId
  deriving DecidableEq, Repr

/-- `cosmrs::tx::AuthInfo`. -/
structure AuthInfo where
  signer_infos : List SignerInfo
  fee : Fee
  deriving DecidableEq, Repr

/-- A protobuf `Any` message of the transaction body. -/
structure AnyMsg where
  type_url : String
  value : Bytes
  deriving DecidableEq, Repr

/-- `cosmrs::tx::Body` (only the part the decoder reads). -/
structure TxBody where
  messages : List AnyMsg
  deriving DecidableEq, Repr

/-- `cosmrs::Tx`. -/
structure Tx where
  body : TxBody
  auth_info : AuthInfo
  deriving DecidableEq, Repr

/-- The chain's configured native token: denomination and decimal exponent
(`ConnectionConf::get_native_token()`).  Modelled from the spec: the
`ConnectionConf` type lives outside the given source; §6 lists the
configuration as `{nativeDenom, nativeDecimalExponent, bech32AddressPrefix,
minimumGasPriceDenom}`. -/
structure NativeToken where
  denom : String
  decimals : Nat
  deriving DecidableEq, Repr

/-- The configured minimum gas price
(`ConnectionConf::get_minimum_gas_price()`), a denominated amount.  Modelled
from the spec (see `NativeToken`). -/
structure RawCosmosAmount where
  denom : String
  amount : Nat
  deriving DecidableEq, Repr

/-- Modelled from the spec: the read-only chain configuration consumed by the
decoder (`ConnectionConf` is outside the given source).  Carries the bech32
prefix, the native token (denom and decimals) and the minimum gas price with
its own denomination, mirroring the accessors `get_bech32_prefix`,
`get_native_token` and `get_minimum_gas_price` used by `provider.rs`. -/
structure ConnectionConf where
  /-- the bech32 address prefix (the field is named after bech32's
  "human-readable part" here) -/
  bech32_hrp : String
  native_token : NativeToken
  minimum_gas_price : RawCosmosAmount
  deriving DecidableEq, Repr

/-- The oracle bundle for external-crate calls made by the decoder.  Each
field stands for one collaborator function whose implementation lives outside
this repository's decoder source; theorems quantify over them. -/
structure Externals where
  /-- `proto::cosmos::crypto::secp256k1::PubKey::from_any` on an `Any` whose
  `type_url` is `SECP256K1_TYPE_URL`: yields the raw compressed key bytes. -/
  protoSecp256k1FromAny : Bytes → Except CosmosError Bytes
  /-- `crypto::decompress_public_key`: compressed secp256k1 key to
  uncompressed point bytes (errors stringly). -/
  decompressPublicKey : Bytes → Except String Bytes
  /-- `tendermint::PublicKey::from_raw_secp256k1` followed by
  `cosmrs::crypto::PublicKey::from`: yields the native key's bytes. -/
  fromRawSecp256k1 : Bytes → Option Bytes
  /-- `cosmrs::crypto::PublicKey::try_from(Any)` for the standard type URLs. -/
  publicKeyFromProtoAny : String → Bytes → Except CosmosError PublicKey
  /-- `cosmrs::crypto::PublicKey::try_from(SignerPublicKey)`. -/
  publicKeyTryFrom : SignerPublicKey → Except CosmosError PublicKey
  /-- `CosmosAccountId::account_id_from_pubkey(key, prefix, style)`. -/
  accountIdFromPubkey :
    PublicKey → String → AccountAddressType → Except CosmosError AccountId
  /-- `CosmosAddress::from_account_id(a)` followed by `.digest()`. -/
  addressDigest : AccountId → Except CosmosError H256
  /-- `cosmrs::Tx::from_bytes`. -/
  txFromBytes : Bytes → Except CosmosError Tx
  /-- `ProtoMsgExecuteContract::from_any`, `MsgExecuteContract::try_from` and
  `H256::try_from(CosmosAccountId::new(&msg.contract))` combined: decode a
  contract-execution payload to the contract's `H256`. -/
  decodeExecuteContract : Bytes → Except CosmosError H256

/-- The warning/error message built by `normalize_public_key` for an
unrecognized key type URL. -/
def unrecognizedKeyTypeMsg : String :=
  "can only normalize public keys with a known TYPE_URL: " ++
    ED25519_TYPE_URL ++ ", " ++ SECP256K1_TYPE_URL ++ ", " ++
    INJECTIVE_PUBLIC_KEY_TYPE_URL

/-- `CosmosProvider::normalize_public_key` (source lines 115-169). -/
def normalize_public_key (ext : Externals) (signer_public_key : SignerPublicKey) :
    Except CosmosError (SignerPublicKey × AccountAddressType) :=
  match signer_public_key with
  | .single pk => .ok (.single pk, .bitcoin)
  | .legacyAminoMultisig pk => .ok (.legacyAminoMultisig pk, .bitcoin)
  | .any type_url value =>
    if type_url ≠ ED25519_TYPE_URL ∧ type_url ≠ SECP256K1_TYPE_URL ∧
        type_url ≠ INJECTIVE_PUBLIC_KEY_TYPE_URL then
      .error (.publicKeyError unrecognizedKeyTypeMsg)
    else if type_url = INJECTIVE_PUBLIC_KEY_TYPE_URL then
      match ext.protoSecp256k1FromAny value with
      | .error e => .error e
      | .ok key =>
        match ext.decompressPublicKey key with
        | .error e => .error (.publicKeyError e)
        | .ok decompressed =>
          match ext.fromRawSecp256k1 decompressed with
          | none => .error (.publicKeyError "cannot create tendermint public key")
          | some b => .ok (.single (.secp256k1 b), .ethereum)
    else
      match ext.publicKeyFromProtoAny type_url value with
      | .error e => .error e
      | .ok pub_key => .ok (.single pub_key, .bitcoin)

/-- `CosmosProvider::convert_signer_info_into_account_id_and_nonce`
(source lines 95-113). -/
def convert_signer_info_into_account_id_and_nonce (ext : Externals)
    (conf : ConnectionConf) (signer_info : SignerInfo) :
    Except CosmosError (AccountId × Nat) :=
  match signer_info.public_key with
  | none => .error (.publicKeyError "no public key for default signer")
  | some signer_public_key =>
    match normalize_public_key ext signer_public_key with
    | .error e => .error e
    | .ok (key, account_address_type) =>
      match ext.publicKeyTryFrom key with
      | .error e => .error e
      | .ok public_key =>
        match ext.accountIdFromPubkey public_key conf.bech32_hrp
            account_address_type with
        | .error e => .error e
        | .ok account_id => .ok (account_id, signer_info.sequence)

/-- `itertools::Itertools::filter_ok`: `Err` items pass through, `Ok` items
are kept only when the predicate holds. -/
def filterOk (p : α → Bool) : List (Except ε α) → List (Except ε α)
  | [] => []
  | .ok a :: rest =>
    if p a then .ok a :: filterOk p rest else filterOk p rest
  | .error e :: rest => .error e :: filterOk p rest

/-- `itertools::Itertools::find_or_first`: the first item satisfying the
predicate, else the first item, else `none`. -/
def findOrFirst (p : α → Bool) (l : List α) : Option α :=
  match l.find? p with
  | some a => some a
  | none => l.head?

/-- The predicate of the `filter_ok` call in `search_payer_in_signer_infos`:
the entry's derived account id equals the payer. -/
def payerMatch (payer : AccountId) (x : AccountId × Nat) : Bool :=
  payer == x.1

/-- The predicate of the `find_or_first` call in
`search_payer_in_signer_infos`: an `Ok` entry matching the payer. -/
def resultMatch (payer : AccountId) : Except CosmosError (AccountId × Nat) → Bool
  | .ok x => payerMatch payer x
  | .error _ => false

/-- `CosmosProvider::search_payer_in_signer_infos` (source lines 75-93):
map every signer info to its `(account id, sequence)` result, keep `Err`
entries and `Ok` entries equal to the payer, take the first payer match or
else the first remaining entry, and fail with "no signer info" when nothing
remains. -/
def search_payer_in_signer_infos (ext : Externals) (conf : ConnectionConf)
    (signer_infos : List SignerInfo) (payer : AccountId) :
    Except CosmosError (AccountId × Nat) :=
  let results := signer_infos.map
    (convert_signer_info_into_account_id_and_nonce ext conf)
  let filtered := filterOk (payerMatch payer) results
  match findOrFirst (resultMatch payer) filtered with
  | some r => r
  | none => .error (.fromOtherStr "no signer info")

/-- `CosmosProvider::sender_and_nonce` (source lines 176-197): resolve via
the fee payer when present, else via the first signer info, then map the
account id to its address digest. -/
def sender_and_nonce (ext : Externals) (conf : ConnectionConf) (tx : Tx) :
    Except CosmosError (H256 × Nat) :=
  let step : Except CosmosError (AccountId × Nat) :=
    match tx.auth_info.fee.payer with
    | some payer =>
      search_payer_in_signer_infos ext conf tx.auth_info.signer_infos payer
    | none =>
      match tx.auth_info.signer_infos.head? with
      | none => .error (.signerInfoError "no signer info in default signer")
      | some signer_info =>
        convert_signer_info_into_account_id_and_nonce ext conf signer_info
  match step with
  | .error e => .error e
  | .ok (a, n) =>
    match ext.addressDigest a with
    | .error e => .error e
    | .ok sender => .ok (sender, n)

/-- The contract-execution message type tag. -/
def EXECUTE_CONTRACT_TYPE_URL : String := "/cosmwasm.wasm.v1.MsgExecuteContract"

/-- Error message of `contract` for more than one contract-execution
message (the spec's `MultipleContractMessages`). -/
def multipleContractMessagesMsg : String :=
  "transaction contains multiple contract execution messages, we are indexing the first entry only"

/-- Error message of `contract` for no contract-execution message (the
spec's `NoContractMessage`). -/
def noContractMessageMsg : String :=
  "could not find contract execution message"

/-- Error message of `report_unsupported_denominations` (the spec's
`UnsupportedFeeDenomination`). -/
def unsupportedDenominationsMsg : String :=
  "transaction contains fees in unsupported denominations, manual intervention is required"

/-- `CosmosProvider::contract` (source lines 201-229): filter the body's
messages by the contract-execution tag; more than one fails, none fails,
exactly one is decoded to the contract address. -/
def contract (ext : Externals) (tx : Tx) (_tx_hash : H256) :
    Except CosmosError H256 :=
  let contract_execution_messages :=
    tx.body.messages.filter (fun a => a.type_url == EXECUTE_CONTRACT_TYPE_URL)
  if contract_execution_messages.length > 1 then
    .error (.customError multipleContractMessagesMsg)
  else
    match contract_execution_messages.head? with
    | none => .error (.fromOtherStr noContractMessageMsg)
    | some any => ext.decodeExecuteContract any.value

/-- The string of unsupported denominations built by
`report_unsupported_denominations`: fee-coin denominations different from
the configured minimum gas price's denomination, comma-folded. -/
def unsupportedDenominationsOf (conf : ConnectionConf) (tx : Tx) : String :=
  let supported_denomination := conf.minimum_gas_price.denom
  ((tx.auth_info.fee.amount.filter
      (fun c => !(c.denom == supported_denomination))).map
    (fun c => c.denom)).foldl (fun acc denom => acc ++ ", " ++ denom) ""

/-- `CosmosProvider::report_unsupported_denominations` (source lines
235-258): fold the denominations different from the configured minimum gas
price's denomination into a string and fail when it is non-empty. -/
def report_unsupported_denominations (conf : ConnectionConf) (tx : Tx)
    (_tx_hash : H256) : Except CosmosError Unit :=
  let unsupported_denominations := unsupportedDenominationsOf conf tx
  if !unsupported_denominations.isEmpty then
    .error (.customError unsupportedDenominationsMsg)
  else
    .ok ()

/-- `CosmosProvider::convert_fee` (source lines 271-284): zero for a coin not
in the native denomination, otherwise the amount scaled by
`10^(ATTO_EXPONENT - decimals)` in `U256` arithmetic.  (The source computes
the exponent by `u32` subtraction, so the configuration must satisfy
`decimals ≤ 18`.) -/
def convert_fee (conf : ConnectionConf) (coin : Coin) : Nat :=
  let native_token := conf.native_token
  if coin.denom ≠ native_token.denom then
    0
  else
    let exponent := ATTO_EXPONENT - native_token.decimals
    let coefficient := 10 ^ exponent
    coin.amount * coefficient % U256_MOD

/-- The fee total of `get_txn_by_hash`: fold of `convert_fee` over the fee
coins with `U256` addition. -/
def totalFee (conf : ConnectionConf) (tx : Tx) : Nat :=
  tx.auth_info.fee.amount.foldl (fun acc c => (acc + convert_fee conf c) % U256_MOD) 0

/-- `hyperlane_core::TxnReceiptInfo`. -/
structure TxnReceiptInfo where
  gas_used : Nat
  cumulative_gas_used : Nat
  effective_gas_price : Option Nat
  deriving DecidableEq, Repr

/-- `hyperlane_core::TxnInfo`: the decoder's output descriptor. -/
structure TxnInfo where
  hash : H256
  gas_limit : Nat
  max_priority_fee_per_gas : Option Nat
  max_fee_per_gas : Option Nat
  gas_price : Option Nat
  nonce : Nat
  sender : H256
  recipient : Option H256
  receipt : Option TxnReceiptInfo
  deriving DecidableEq, Repr

/-- `hyperlane_core::BlockInfo`. -/
structure BlockInfo where
  hash : H256
  timestamp : Nat
  number : Nat
  deriving DecidableEq, Repr

/-- The node's `tx_result` sub-record of a transaction query response. -/
structure TxResult where
  gas_wanted : Nat
  gas_used : Nat
  deriving DecidableEq, Repr

/-- The node's transaction query response
(`CosmosRpcClient::get_tx_by_hash` result): reported hash, raw transaction
bytes and execution result. -/
structure TxResponse where
  hash : H256
  tx : Bytes
  tx_result : TxResult
  deriving DecidableEq, Repr

/-- `block_id` of the node's block query response. -/
structure BlockId where
  hash : H256
  deriving DecidableEq, Repr

/-- Header of a returned block: time (already as unix seconds) and height. -/
structure BlockHeader where
  time : Nat
  height : Nat
  deriving DecidableEq, Repr

/-- A returned block. -/
structure Block where
  header : BlockHeader
  deriving DecidableEq, Repr

/-- The node's block query response (`CosmosRpcClient::get_block_by_hash`
result). -/
structure BlockResponse where
  block_id : BlockId
  block : Option Block
  deriving DecidableEq, Repr

/-- Outcome of a decode call: typed success, typed failure, or a Rust panic
(the `U256` division in `get_txn_by_hash` panics on a zero divisor). -/
inductive DecodeOutcome where
  | success (info : TxnInfo)
  | failure (e : CosmosError)
  | panicked (msg : String)
  deriving DecidableEq, Repr

/-- `get_block_by_hash` (source lines 299-329), with the already-fetched
response passed in: verify the reported hash, require a block body, and
extract `BlockInfo`. -/
def get_block_by_hash (hash : H256) (response : BlockResponse) :
    Except CosmosError BlockInfo :=
  let received_hash := response.block_id.hash
  if received_hash ≠ hash then
    .error (.fromOtherStr
      ("received incorrect block, expected hash: " ++ toString hash ++
        ", received hash: " ++ toString received_hash))
  else
    match response.block with
    | none => .error (.fromOtherStr ("empty block info for block: " ++ toString hash))
    | some block =>
      .ok { hash := hash
            timestamp := block.header.time
            number := block.header.height }

/-- `get_txn_by_hash` (source lines 331-388), with the already-fetched
response passed in: verify the reported hash, decode the raw bytes, extract
contract, sender/nonce, validate denominations, and assemble `TxnInfo` with
the gas price `fee / gas_limit` (zero promoted to one; the `U256` division
panics when `gas_limit` is zero). -/
def get_txn_by_hash (ext : Externals) (conf : ConnectionConf) (hash : H256)
    (response : TxResponse) : DecodeOutcome :=
  let received_hash := response.hash
  if received_hash ≠ hash then
    .failure (.fromOtherStr
      ("received incorrect transaction, expected hash: " ++ toString hash ++
        ", received hash: " ++ toString received_hash))
  else
    match ext.txFromBytes response.tx with
    | .error e => .failure e
    | .ok tx =>
      match contract ext tx hash with
      | .error e => .failure e
      | .ok contractAddr =>
        match sender_and_nonce ext conf tx with
        | .error e => .failure e
        | .ok (sender, nonce) =>
          match report_unsupported_denominations conf tx hash with
          | .error e => .failure e
          | .ok _ =>
            let gas_limit := tx.auth_info.fee.gas_limit
            let fee := totalFee conf tx
            if gas_limit = 0 then
              .panicked "division by zero"
            else
              let gas_price := fee / gas_limit
              let gas_price := if gas_price = 0 then 1 else gas_price
              .success
                { hash := hash
                  gas_limit := response.tx_result.gas_wanted
                  max_priority_fee_per_gas := none
                  max_fee_per_gas := none
                  gas_price := some gas_price
                  nonce := nonce
                  sender := sender
                  recipient := some contractAddr
                  receipt := some
                    { gas_used := response.tx_result.gas_used
                      cumulative_gas_used := response.tx_result.gas_used
                      effective_gas_price := some gas_price } }

/-- First `Err` payload of a list of results, in list order. -/
def firstError : List (Except ε α) → Option ε
  | [] => none
  | .error e :: _ => some e
  | .ok _ :: rest => firstError rest

/-! Concrete instances used to evaluate the embedded decoder on explicit
inputs (witnesses and counterexamples). -/

/-- A sample secp256k1 key. -/
def keyA : PublicKey := .secp256k1 [1]

/-- A sample external-collaborator bundle: key extraction succeeds for plain
single keys, `keyA` derives to the account "addrA" (other keys to "addrB"),
"addrA" digests to `77`, and contract payloads decode to `99`. -/
def extW : Externals :=
  { protoSecp256k1FromAny := fun _ => .error (.publicKeyError "unused")
    decompressPublicKey := fun _ => .error "unused"
    fromRawSecp256k1 := fun _ => none
    publicKeyFromProtoAny := fun _ _ => .error (.publicKeyError "unused")
    publicKeyTryFrom := fun k =>
      match k with
      | .single pk => .ok pk
      | _ => .error (.publicKeyError "not a single key")
    accountIdFromPubkey := fun pk _ _ =>
      match pk with
      | .secp256k1 bs => if bs = [1] then .ok "addrA" else .ok "addrB"
      | .ed25519 _ => .ok "addrEd"
    addressDigest := fun a => if a = "addrA" then .ok 77 else .ok 88
    txFromBytes := fun _ => .error (.customError "unused")
    decodeExecuteContract := fun _ => .ok 99 }

/-- A variant of `extW` whose proto-decoding oracles succeed by tagging their
input, to exercise the injective-key pipeline. -/
def extInj : Externals :=
  { extW with
    protoSecp256k1FromAny := fun v => .ok (0 :: v)
    decompressPublicKey := fun v => .ok (1 :: v)
    fromRawSecp256k1 := fun v => some (2 :: v)
    publicKeyFromProtoAny := fun _ v => .ok (.ed25519 v) }

/-- A variant of `extW` returning a fixed decoded transaction. -/
def extWithTx (tx : Tx) : Externals :=
  { extW with txFromBytes := fun _ => .ok tx }

/-- A sample configuration: 6-decimal native token `untrn`, minimum gas
price in `untrn`. -/
def confW : ConnectionConf :=
  { bech32_hrp := "cosmos"
    native_token := { denom := "untrn", decimals := 6 }
    minimum_gas_price := { denom := "untrn", amount := 1 } }

/-- A configuration whose minimum-gas-price denomination differs from the
native denomination. -/
def confSplit : ConnectionConf :=
  { bech32_hrp := "cosmos"
    native_token := { denom := "untrn", decimals := 6 }
    minimum_gas_price := { denom := "uosmo", amount := 1 } }

/-- A signer info holding `keyA` with the given sequence. -/
def siA (seq : Nat) : SignerInfo :=
  { public_key := some (.single keyA), sequence := seq }

/-- A signer info without a public key (its conversion fails). -/
def siNoKey : SignerInfo := { public_key := none, sequence := 0 }

/-- A contract-execution message with the given payload. -/
def execMsg (v : Bytes) : AnyMsg :=
  { type_url := EXECUTE_CONTRACT_TYPE_URL, value := v }

/-- A non-contract-execution message. -/
def otherMsg : AnyMsg := { type_url := "/cosmos.bank.v1beta1.MsgSend", value := [] }

/-- A coin in the `untrn` denomination. -/
def coinNative (amt : Nat) : Coin := { denom := "untrn", amount := amt }

/-- A coin in a foreign denomination. -/
def coinOther : Coin := { denom := "uosmo", amount := 5 }

/-- Assemble a transaction from its parts. -/
def mkTx (msgs : List AnyMsg) (sis : List SignerInfo) (coins : List Coin)
    (gl : Nat) (payer : Option AccountId) : Tx :=
  { body := { messages := msgs }
    auth_info :=
      { signer_infos := sis
        fee := { amount := coins, gas_limit := gl, payer := payer } } }

/-- A sample node response carrying hash `42`. -/
def respW : TxResponse :=
  { hash := 42, tx := [0], tx_result := { gas_wanted := 500, gas_used := 400 } }

/-- A transaction with one contract message, one signer (sequence 5), a zero
fee in the native denomination, gas limit 100 and no payer. -/
def txGas100 : Tx := mkTx [execMsg [1]] [siA 5] [coinNative 0] 100 none

/-- Like `txGas100` but with a zero gas limit. -/
def txGas0 : Tx := mkTx [execMsg [1]] [siA 5] [coinNative 0] 0 none

/-- The transaction of the duplicate-payer-match scenario: payer "addrA",
two signer infos both deriving to "addrA" with sequences 5 and 7. -/
def txDupPayer : Tx := mkTx [] [siA 5, siA 7] [] 100 (some "addrA")

/-- A transaction whose payer matches the second signer info; the first
signer info fails to decode. -/
def txPayerLate : Tx := mkTx [] [siNoKey, siA 7] [] 100 (some "addrA")

/-- A sample block response carrying hash `7`. -/
def brespW : BlockResponse :=
  { block_id := { hash := 7 }
    block := some { header := { time := 123, height := 9 } } }

/-- The expected output of decoding `txGas100` from `respW` under `confW`. -/
def infoW : TxnInfo :=
  { hash := 42
    gas_limit := 500
    max_priority_fee_per_gas := none
    max_fee_per_gas := none
    gas_price := some 1
    nonce := 5
    sender := 77
    recipient := some 99
    receipt := some
      { gas_used := 400, cumulative_gas_used := 400, effective_gas_price := some 1 } }

/-!  Theorems.  Each claim `Cn` of the specification corresponds to one
theorem below (with auxiliary lemmas shared between them). -/

/-- C9: if the fetched hash differs from the requested hash, both
`get_txn_by_hash` and `get_block_by_hash` fail with the hash-mismatch error
and produce no `TxnInfo` (resp. no `BlockInfo`); nothing of the fetched
payload is observable in such a call's output. -/
theorem hash_mismatch_rejects (ext : Externals) (conf : ConnectionConf)
    (hash : H256) (resp : TxResponse) (bresp : BlockResponse)
    (ht : resp.hash ≠ hash) (hb : bresp.block_id.hash ≠ hash) :
    get_txn_by_hash ext conf hash resp =
      .failure (.fromOtherStr
        ("received incorrect transaction, expected hash: " ++ toString hash ++
          ", received hash: " ++ toString resp.hash)) ∧
    get_block_by_hash hash bresp =
      .error (.fromOtherStr
        ("received incorrect block, expected hash: " ++ toString hash ++
          ", received hash: " ++ toString bresp.block_id.hash)) ∧
    (∀ info, get_txn_by_hash ext conf hash resp ≠ .success info) ∧
    (∀ binfo, get_block_by_hash hash bresp ≠ .ok binfo) := by
  have h1 : get_txn_by_hash ext conf hash resp =
      .failure (.fromOtherStr
        ("received incorrect transaction, expected hash: " ++ toString hash ++
          ", received hash: " ++ toString resp.hash)) := by
    simp only [get_txn_by_hash]
    rw [if_pos ht]
  have h2 : get_block_by_hash hash bresp =
      .error (.fromOtherStr
        ("received incorrect block, expected hash: " ++ toString hash ++
          ", received hash: " ++ toString bresp.block_id.hash)) := by
    simp only [get_block_by_hash]
    rw [if_pos hb]
  refine ⟨h1, h2, ?_, ?_⟩
  · intro info hinfo
    rw [h1] at hinfo
    exact DecodeOutcome.noConfusion hinfo
  · intro binfo hbinfo
    rw [h2] at hbinfo
    exact Except.noConfusion hbinfo

/-- Witness for C9 at requested hash 43 against responses reporting hashes
42 and 7. -/
theorem hash_mismatch_rejects_witness :
    get_txn_by_hash extW confW 43 respW =
      .failure (.fromOtherStr
        ("received incorrect transaction, expected hash: " ++ toString (43 : H256) ++
          ", received hash: " ++ toString respW.hash)) ∧
    get_block_by_hash 43 brespW =
      .error (.fromOtherStr
        ("received incorrect block, expected hash: " ++ toString (43 : H256) ++
          ", received hash: " ++ toString brespW.block_id.hash)) ∧
    (∀ info, get_txn_by_hash extW confW 43 respW ≠ .success info) ∧
    (∀ binfo, get_block_by_hash 43 brespW ≠ .ok binfo) :=
  hash_mismatch_rejects extW confW 43 respW brespW (by decide) (by decide)

/-- C4: key normalization is a total case analysis over the three
key-encoding variants: `Single` and `LegacyAminoMultisig` pass through with
the Bitcoin (StyleA) tag; a typed `Any` with the standard Ed25519 or
Secp256k1 URL is unwrapped with the Bitcoin tag; the Injective
ethsecp256k1 URL is proto-decoded as a compressed secp256k1 key,
decompressed and returned as a native secp256k1 key with the Ethereum
(StyleB) tag; any other URL fails with the unrecognized-key-type error. -/
theorem normalize_public_key_cases (ext : Externals) :
    (∀ pk, normalize_public_key ext (.single pk) = .ok (.single pk, .bitcoin)) ∧
    (∀ pk, normalize_public_key ext (.legacyAminoMultisig pk) =
      .ok (.legacyAminoMultisig pk, .bitcoin)) ∧
    (∀ url value pk, (url = ED25519_TYPE_URL ∨ url = SECP256K1_TYPE_URL) →
      ext.publicKeyFromProtoAny url value = .ok pk →
      normalize_public_key ext (.any url value) = .ok (.single pk, .bitcoin)) ∧
    (∀ value key decompressed b,
      ext.protoSecp256k1FromAny value = .ok key →
      ext.decompressPublicKey key = .ok decompressed →
      ext.fromRawSecp256k1 decompressed = some b →
      normalize_public_key ext (.any INJECTIVE_PUBLIC_KEY_TYPE_URL value) =
        .ok (.single (.secp256k1 b), .ethereum)) ∧
    (∀ url value, url ≠ ED25519_TYPE_URL → url ≠ SECP256K1_TYPE_URL →
      url ≠ INJECTIVE_PUBLIC_KEY_TYPE_URL →
      normalize_public_key ext (.any url value) =
        .error (.publicKeyError unrecognizedKeyTypeMsg)) := by
  refine ⟨fun pk => rfl, fun pk => rfl, ?_, ?_, ?_⟩
  · rintro url value pk (rfl | rfl) hok <;>
      · simp only [normalize_public_key]
        rw [if_neg (by decide), if_neg (by decide), hok]
  · intro value key decompressed b h1 h2 h3
    simp only [normalize_public_key]
    rw [if_neg (by decide), if_pos trivial]
    simp only [h1, h2, h3]
  · intro url value h1 h2 h3
    simp only [normalize_public_key]
    rw [if_pos ⟨h1, h2, h3⟩]

/-- Witness for C4: all five normalization cases evaluated on concrete
keys with the `extInj` collaborators. -/
theorem normalize_public_key_cases_witness :
    normalize_public_key extInj (.single keyA) = .ok (.single keyA, .bitcoin) ∧
    normalize_public_key extInj (.legacyAminoMultisig ⟨1, [keyA]⟩) =
      .ok (.legacyAminoMultisig ⟨1, [keyA]⟩, .bitcoin) ∧
    normalize_public_key extInj (.any ED25519_TYPE_URL [9]) =
      .ok (.single (.ed25519 [9]), .bitcoin) ∧
    normalize_public_key extInj (.any INJECTIVE_PUBLIC_KEY_TYPE_URL [9]) =
      .ok (.single (.secp256k1 [2, 1, 0, 9]), .ethereum) ∧
    normalize_public_key extInj (.any "/bogus.Url" [1]) =
      .error (.publicKeyError unrecognizedKeyTypeMsg) := by
  obtain ⟨p1, p2, p3, p4, p5⟩ := normalize_public_key_cases extInj
  exact ⟨p1 keyA, p2 ⟨1, [keyA]⟩,
    p3 ED25519_TYPE_URL [9] (.ed25519 [9]) (Or.inl rfl) rfl,
    p4 [9] (0 :: [9]) (1 :: 0 :: [9]) (2 :: 1 :: 0 :: [9]) rfl rfl rfl,
    p5 "/bogus.Url" [1] (by decide) (by decide) (by decide)⟩

/-- C3: contract extraction is decided by the number of messages carrying
the contract-execution type tag: none fails with the no-contract-message
error, exactly one decodes that message's contract address, two or more
fail with the multiple-contract-messages error without selecting any. -/
theorem contract_message_cases (ext : Externals) (tx : Tx) (tx_hash : H256) :
    (tx.body.messages.filter (fun a => a.type_url == EXECUTE_CONTRACT_TYPE_URL) = [] →
      contract ext tx tx_hash = .error (.fromOtherStr noContractMessageMsg)) ∧
    (∀ m addr,
      tx.body.messages.filter (fun a => a.type_url == EXECUTE_CONTRACT_TYPE_URL) = [m] →
      ext.decodeExecuteContract m.value = .ok addr →
      contract ext tx tx_hash = .ok addr) ∧
    (2 ≤ (tx.body.messages.filter
        (fun a => a.type_url == EXECUTE_CONTRACT_TYPE_URL)).length →
      contract ext tx tx_hash = .error (.customError multipleContractMessagesMsg)) := by
  refine ⟨?_, ?_, ?_⟩
  · intro h
    simp only [contract]
    rw [h]
    rfl
  · intro m addr h hd
    simp only [contract]
    rw [h]
    simpa using hd
  · intro h
    simp only [contract]
    rw [if_pos (by omega)]

/-- Witness for C3: the three cases evaluated on concrete transactions
(one, zero, and two contract-execution messages). -/
theorem contract_message_cases_witness :
    contract extW (mkTx [otherMsg, execMsg [1]] [] [] 100 none) 0 = .ok 99 ∧
    contract extW (mkTx [otherMsg] [] [] 100 none) 0 =
      .error (.fromOtherStr noContractMessageMsg) ∧
    contract extW (mkTx [execMsg [1], execMsg [2]] [] [] 100 none) 0 =
      .error (.customError multipleContractMessagesMsg) :=
  ⟨(contract_message_cases extW (mkTx [otherMsg, execMsg [1]] [] [] 100 none) 0).2.1
      (execMsg [1]) 99 (by decide) rfl,
    (contract_message_cases extW (mkTx [otherMsg] [] [] 100 none) 0).1 (by decide),
    (contract_message_cases extW (mkTx [execMsg [1], execMsg [2]] [] [] 100 none) 0).2.2
      (by decide)⟩

/-- C7: normalizing one fee coin yields zero when its denomination differs
from the configured native denomination, and otherwise scales the integer
amount by `10^(18 - nativeDecimals)` (the amount is a `u128` and the
configured decimals are at most 18, so the `U256` product does not wrap). -/
theorem convert_fee_spec (conf : ConnectionConf) (coin : Coin)
    (hdec : conf.native_token.decimals ≤ 18)
    (hamt : coin.amount < 2 ^ 128) :
    (coin.denom ≠ conf.native_token.denom → convert_fee conf coin = 0) ∧
    (coin.denom = conf.native_token.denom →
      convert_fee conf coin =
        coin.amount * 10 ^ (18 - conf.native_token.decimals)) := by
  constructor
  · intro h
    simp only [convert_fee]
    rw [if_pos h]
  · intro h
    simp only [convert_fee, ATTO_EXPONENT]
    rw [if_neg (by simp [h])]
    apply Nat.mod_eq_of_lt
    have h10 : (10 : Nat) ^ (18 - conf.native_token.decimals) ≤ 10 ^ 18 :=
      Nat.pow_le_pow_right (by norm_num) (by omega)
    calc coin.amount * 10 ^ (18 - conf.native_token.decimals)
        ≤ 2 ^ 128 * 10 ^ 18 := Nat.mul_le_mul (Nat.le_of_lt hamt) h10
      _ < U256_MOD := by norm_num [U256_MOD]

/-- Witness for C7: an amount of 1_000_000 in the 6-decimal native
denomination normalizes to `1_000_000 × 10^12`, and a foreign-denomination
coin normalizes to zero. -/
theorem convert_fee_spec_witness :
    convert_fee confW (coinNative 1000000) = 1000000 * 10 ^ (18 - 6) ∧
    convert_fee confW coinOther = 0 := by
  refine ⟨?_, ?_⟩
  · exact (convert_fee_spec confW (coinNative 1000000) (by decide)
      (by norm_num [coinNative])).2 rfl
  · exact (convert_fee_spec confW coinOther (by decide)
      (by norm_num [coinOther])).1 (by decide)

/-- The comma-fold used by `report_unsupported_denominations` yields the
empty string only from an empty accumulator and an empty list. -/
lemma foldl_commas_eq_empty_iff (l : List String) :
    ∀ acc : String,
      l.foldl (fun acc denom => acc ++ ", " ++ denom) acc = "" ↔
        (acc = "" ∧ l = []) := by
  induction l with
  | nil => intro acc; simp
  | cons d tl ih =>
    intro acc
    simp only [List.foldl_cons]
    rw [ih]
    constructor
    · rintro ⟨h1, -⟩
      exfalso
      have hlen : (acc ++ ", " ++ d).length = 0 := by rw [h1]; rfl
      rw [String.length_append, String.length_append] at hlen
      have h2 : (", " : String).length = 2 := rfl
      omega
    · rintro ⟨-, h⟩
      exact absurd h (by simp)

/-- The unsupported-denominations string is empty exactly when every fee
coin is in the minimum-gas-price denomination. -/
lemma isEmpty_unsupportedDenominationsOf (conf : ConnectionConf) (tx : Tx) :
    (unsupportedDenominationsOf conf tx).isEmpty = true ↔
      ∀ c ∈ tx.auth_info.fee.amount, c.denom = conf.minimum_gas_price.denom := by
  rw [String.isEmpty_iff]
  simp only [unsupportedDenominationsOf]
  rw [foldl_commas_eq_empty_iff]
  simp [List.filter_eq_nil_iff]

/-- Counterexample to C2 as stated: under a configuration whose
minimum-gas-price denomination (`uosmo`) differs from the native
denomination (`untrn`), a fee consisting solely of native-denomination coins
is still rejected, although no fee coin's denomination differs from the
configured native denomination. -/
theorem report_unsupported_denominations_not_native_based :
    report_unsupported_denominations confSplit (mkTx [] [] [coinNative 3] 100 none) 0 =
      .error (.customError unsupportedDenominationsMsg) ∧
    (mkTx [] [] [coinNative 3] 100 none).auth_info.fee.amount.all
      (fun c => c.denom == confSplit.native_token.denom) = true :=
  ⟨rfl, rfl⟩

/-- C2 (amended): the fee-denomination validation pass fails with the
unsupported-denominations error if and only if some fee coin's denomination
differs from the denomination of the chain's configured minimum gas price
(the offending denominations being reported via the diagnostic log), and
returns success if and only if every fee coin is in that denomination. -/
theorem report_unsupported_denominations_iff (conf : ConnectionConf) (tx : Tx)
    (tx_hash : H256) :
    (report_unsupported_denominations conf tx tx_hash =
        .error (.customError unsupportedDenominationsMsg) ↔
      ∃ c ∈ tx.auth_info.fee.amount, c.denom ≠ conf.minimum_gas_price.denom) ∧
    (report_unsupported_denominations conf tx tx_hash = .ok () ↔
      ∀ c ∈ tx.auth_info.fee.amount, c.denom = conf.minimum_gas_price.denom) := by
  have h := isEmpty_unsupportedDenominationsOf conf tx
  simp only [report_unsupported_denominations]
  cases hb : (unsupportedDenominationsOf conf tx).isEmpty
  · rw [hb] at h
    have hno : ¬ ∀ c ∈ tx.auth_info.fee.amount,
        c.denom = conf.minimum_gas_price.denom := fun hP => by
      exact absurd (h.mpr hP) (by simp)
    constructor
    · refine iff_of_true (by simp [hb]) ?_
      push_neg at hno
      exact hno
    · refine iff_of_false (by simp [hb]) hno
  · have hP := h.mp hb
    constructor
    · refine iff_of_false (by simp [hb]) ?_
      rintro ⟨c, hc, hne⟩
      exact absurd (hP c hc) hne
    · exact iff_of_true (by simp [hb]) hP

/-- When no successful entry matches the payer, `filter_ok` leaves only the
error entries, so the `find_or_first` search finds nothing. -/
lemma find?_filterOk_of_no_match (payer : AccountId)
    (l : List (Except CosmosError (AccountId × Nat)))
    (h : ∀ r ∈ l, ∀ a s, r = .ok (a, s) → a ≠ payer) :
    (filterOk (payerMatch payer) l).find? (resultMatch payer) = none := by
  induction l with
  | nil => rfl
  | cons r rest ih =>
    have hrest : ∀ r ∈ rest, ∀ a s, r = .ok (a, s) → a ≠ payer :=
      fun r hr => h r (List.mem_cons_of_mem _ hr)
    cases r with
    | ok x =>
      obtain ⟨a, s⟩ := x
      have hne : a ≠ payer := h _ (List.mem_cons_self _ _) a s rfl
      have hm : payerMatch payer (a, s) = false := by
        simp only [payerMatch, beq_eq_false_iff_ne]
        exact fun he => hne he.symm
      simp only [filterOk, hm, Bool.false_eq_true, if_false]
      exact ih hrest
    | error e =>
      simp only [filterOk, List.find?_cons, resultMatch]
      exact ih hrest

/-- When no successful entry matches the payer, the first entry left by
`filter_ok` is the first error of the original results. -/
lemma head?_filterOk_of_no_match (payer : AccountId)
    (l : List (Except CosmosError (AccountId × Nat)))
    (h : ∀ r ∈ l, ∀ a s, r = .ok (a, s) → a ≠ payer) :
    (filterOk (payerMatch payer) l).head? = (firstError l).map Except.error := by
  induction l with
  | nil => rfl
  | cons r rest ih =>
    have hrest : ∀ r ∈ rest, ∀ a s, r = .ok (a, s) → a ≠ payer :=
      fun r hr => h r (List.mem_cons_of_mem _ hr)
    cases r with
    | ok x =>
      obtain ⟨a, s⟩ := x
      have hne : a ≠ payer := h _ (List.mem_cons_self _ _) a s rfl
      have hm : payerMatch payer (a, s) = false := by
        simp only [payerMatch, beq_eq_false_iff_ne]
        exact fun he => hne he.symm
      simp only [filterOk, hm, Bool.false_eq_true, if_false, firstError]
      exact ih hrest
    | error e => rfl

/-- When entry `k` is the first successful entry matching the payer, the
`find_or_first` search finds exactly that entry. -/
lemma find?_filterOk_of_first_match (payer : AccountId) :
    ∀ (l : List (Except CosmosError (AccountId × Nat))) (k : Nat)
      (hk : k < l.length) (s : Nat),
      l.get ⟨k, hk⟩ = .ok (payer, s) →
      (∀ j (hj : j < k), ∀ a s',
        l.get ⟨j, Nat.lt_trans hj hk⟩ = .ok (a, s') → a ≠ payer) →
      (filterOk (payerMatch payer) l).find? (resultMatch payer) =
        some (.ok (payer, s)) := by
  intro l
  induction l with
  | nil => intro k hk; exact absurd hk (Nat.not_lt_zero k)
  | cons r rest ih =>
    intro k hk s hget hbefore
    cases k with
    | zero =>
      have hr : r = .ok (payer, s) := hget
      subst hr
      have hm : payerMatch payer (payer, s) = true := by
        simp [payerMatch]
      simp [filterOk, hm, List.find?_cons, resultMatch]
    | succ j =>
      have hfirst : ∀ a s', r = .ok (a, s') → a ≠ payer :=
        fun a s' hr => hbefore 0 (Nat.succ_pos j) a s' hr
      have hrec :
          (filterOk (payerMatch payer) rest).find? (resultMatch payer) =
            some (.ok (payer, s)) := by
        refine ih j (Nat.lt_of_succ_lt_succ hk) s hget ?_
        intro j' hj' a s' hget'
        exact hbefore (j' + 1) (Nat.succ_lt_succ hj') a s' hget'
      cases r with
      | ok x =>
        obtain ⟨a, s'⟩ := x
        have hne : a ≠ payer := hfirst a s' rfl
        have hm : payerMatch payer (a, s') = false := by
          simp only [payerMatch, beq_eq_false_iff_ne]
          exact fun he => hne he.symm
        simp only [filterOk, hm, Bool.false_eq_true, if_false]
        exact hrec
      | error e =>
        simp only [filterOk, List.find?_cons, resultMatch]
        exact hrec

/-- C1 (amended): in the payer-present search, when no entry's derived
account id equals the payer, the result is the first per-entry decode error
in list order when some entry failed to decode (that entry's original
error), and the "no signer info" error when every entry decoded
successfully or the list is empty. -/
theorem search_payer_in_signer_infos_fallback (ext : Externals)
    (conf : ConnectionConf) (signer_infos : List SignerInfo) (payer : AccountId)
    (hnone : ∀ si ∈ signer_infos, ∀ a s,
      convert_signer_info_into_account_id_and_nonce ext conf si = .ok (a, s) →
      a ≠ payer) :
    search_payer_in_signer_infos ext conf signer_infos payer =
      match firstError (signer_infos.map
          (convert_signer_info_into_account_id_and_nonce ext conf)) with
      | some e => .error e
      | none => .error (.fromOtherStr "no signer info") := by
  have hl : ∀ r ∈ signer_infos.map
      (convert_signer_info_into_account_id_and_nonce ext conf), ∀ a s,
      r = .ok (a, s) → a ≠ payer := by
    intro r hr a s hra
    obtain ⟨si, hsi, rfl⟩ := List.mem_map.mp hr
    exact hnone si hsi a s hra
  simp only [search_payer_in_signer_infos, findOrFirst]
  rw [find?_filterOk_of_no_match payer _ hl, head?_filterOk_of_no_match payer _ hl]
  cases firstError (signer_infos.map
      (convert_signer_info_into_account_id_and_nonce ext conf)) <;> rfl

/-- Witness for the amended C1: a failing entry followed by a successful
non-matching entry; the search surfaces the first entry's original error. -/
theorem search_payer_in_signer_infos_fallback_witness :
    search_payer_in_signer_infos extW confW [siNoKey, siA 5] "addrP" =
      match firstError ([siNoKey, siA 5].map
          (convert_signer_info_into_account_id_and_nonce extW confW)) with
      | some e => .error e
      | none => .error (.fromOtherStr "no signer info") :=
  search_payer_in_signer_infos_fallback extW confW [siNoKey, siA 5] "addrP"
    (by
      intro si hsi a s h
      simp only [List.mem_cons, List.not_mem_nil, or_false] at hsi
      rcases hsi with rfl | rfl
      · have h2 : (Except.error (CosmosError.publicKeyError
            "no public key for default signer") :
            Except CosmosError (AccountId × Nat)) = .ok (a, s) := h
        exact Except.noConfusion h2
      · have h2 : (Except.ok (("addrA" : AccountId), (5 : Nat)) :
            Except CosmosError (AccountId × Nat)) = .ok (a, s) := h
        injection h2 with h3
        injection h3 with ha hs
        rw [← ha]
        decide)

/-- Counterexample to C1 as stated: a one-entry list whose entry decodes
successfully but does not match the payer.  The claim predicts the first
entry's result (a success); the code filters the non-matching success out
and fails with "no signer info". -/
theorem search_payer_fallback_skips_ok_entries :
    search_payer_in_signer_infos extW confW [siA 5] "addrP" =
      .error (.fromOtherStr "no signer info") ∧
    convert_signer_info_into_account_id_and_nonce extW confW (siA 5) =
      .ok ("addrA", 5) ∧
    ("addrA" : AccountId) ≠ "addrP" :=
  ⟨rfl, rfl, by decide⟩

/-- The payer-present search returns the first entry whose derived account
id equals the payer, regardless of its position and of earlier failing
entries. -/
lemma search_payer_in_signer_infos_first_match (ext : Externals)
    (conf : ConnectionConf) (signer_infos : List SignerInfo) (payer : AccountId)
    (k : Nat) (hk : k < signer_infos.length) (s : Nat)
    (hget : convert_signer_info_into_account_id_and_nonce ext conf
      (signer_infos.get ⟨k, hk⟩) = .ok (payer, s))
    (hbefore : ∀ j (hj : j < k), ∀ a s',
      convert_signer_info_into_account_id_and_nonce ext conf
        (signer_infos.get ⟨j, Nat.lt_trans hj hk⟩) = .ok (a, s') → a ≠ payer) :
    search_payer_in_signer_infos ext conf signer_infos payer = .ok (payer, s) := by
  have hk2 : k < (signer_infos.map
      (convert_signer_info_into_account_id_and_nonce ext conf)).length := by
    simpa using hk
  have hget2 : (signer_infos.map
      (convert_signer_info_into_account_id_and_nonce ext conf)).get ⟨k, hk2⟩ =
      .ok (payer, s) := by
    rw [List.get_map]
    exact hget
  have hbefore2 : ∀ j (hj : j < k), ∀ a s',
      (signer_infos.map
        (convert_signer_info_into_account_id_and_nonce ext conf)).get
          ⟨j, Nat.lt_trans hj hk2⟩ = .ok (a, s') → a ≠ payer := by
    intro j hj a s' hget'
    rw [List.get_map] at hget'
    exact hbefore j hj a s' hget'
  simp only [search_payer_in_signer_infos, findOrFirst]
  rw [find?_filterOk_of_first_match payer _ k hk2 s hget2 hbefore2]

/-- C6 (amended): if the fee payer equals the derived account id of signer
entry `k` and no earlier entry also matches, sender resolution returns entry
`k`'s derived address as sender and entry `k`'s sequence as nonce,
regardless of `k`'s position and of earlier failing entries. -/
theorem sender_and_nonce_payer_match (ext : Externals) (conf : ConnectionConf)
    (tx : Tx) (payer : AccountId) (k : Nat)
    (hk : k < tx.auth_info.signer_infos.length) (s : Nat) (h : H256)
    (hpayer : tx.auth_info.fee.payer = some payer)
    (hget : convert_signer_info_into_account_id_and_nonce ext conf
      (tx.auth_info.signer_infos.get ⟨k, hk⟩) = .ok (payer, s))
    (hbefore : ∀ j (hj : j < k), ∀ a s',
      convert_signer_info_into_account_id_and_nonce ext conf
        (tx.auth_info.signer_infos.get ⟨j, Nat.lt_trans hj hk⟩) = .ok (a, s') →
      a ≠ payer)
    (hdig : ext.addressDigest payer = .ok h) :
    sender_and_nonce ext conf tx = .ok (h, s) := by
  have hsearch := search_payer_in_signer_infos_first_match ext conf
    tx.auth_info.signer_infos payer k hk s hget hbefore
  simp only [sender_and_nonce, hpayer, hsearch, hdig]

/-- Witness for the amended C6: the payer matches the second signer entry
while the first entry fails to decode; resolution returns the second
entry's address digest and sequence. -/
theorem sender_and_nonce_payer_match_witness :
    sender_and_nonce extW confW txPayerLate = .ok (77, 7) :=
  sender_and_nonce_payer_match extW confW txPayerLate "addrA" 1 (by decide) 7 77
    rfl rfl
    (by
      intro j hj a s' hget'
      interval_cases j
      exact fun _ => Except.noConfusion hget')
    rfl

/-- Counterexample to C6 as stated: two signer entries derive the same
account id as the payer with different sequences (5 at position 0, 7 at
position 1).  For `k = 1` the claim predicts nonce 7, but resolution
returns the first match's sequence 5. -/
theorem sender_and_nonce_duplicate_match :
    sender_and_nonce extW confW txDupPayer = .ok (77, 5) ∧
    txDupPayer.auth_info.fee.payer = some "addrA" ∧
    convert_signer_info_into_account_id_and_nonce extW confW
      (txDupPayer.auth_info.signer_infos.get ⟨1, by decide⟩) = .ok ("addrA", 7) ∧
    (5 : Nat) ≠ 7 :=
  ⟨rfl, rfl, rfl, by decide⟩

/-- C8: with no fee payer, sender resolution uses the first signer-info
entry (its derived address digest and sequence), and fails with the
no-signer-info error on an empty signer list. -/
theorem sender_and_nonce_no_payer (ext : Externals) (conf : ConnectionConf)
    (tx : Tx) (hpayer : tx.auth_info.fee.payer = none) :
    (tx.auth_info.signer_infos = [] →
      sender_and_nonce ext conf tx =
        .error (.signerInfoError "no signer info in default signer")) ∧
    (∀ si rest a n h, tx.auth_info.signer_infos = si :: rest →
      convert_signer_info_into_account_id_and_nonce ext conf si = .ok (a, n) →
      ext.addressDigest a = .ok h →
      sender_and_nonce ext conf tx = .ok (h, n)) := by
  constructor
  · intro hnil
    simp only [sender_and_nonce, hpayer, hnil, List.head?_nil]
  · intro si rest a n h hcons hconv hdig
    simp only [sender_and_nonce, hpayer, hcons, List.head?_cons, hconv, hdig]

/-- Witness for C8: one-signer resolution without a payer, and the empty
signer list. -/
theorem sender_and_nonce_no_payer_witness :
    sender_and_nonce extW confW (mkTx [] [siA 5] [] 100 none) = .ok (77, 5) ∧
    sender_and_nonce extW confW (mkTx [] [] [] 100 none) =
      .error (.signerInfoError "no signer info in default signer") :=
  ⟨(sender_and_nonce_no_payer extW confW (mkTx [] [siA 5] [] 100 none) rfl).2
      (siA 5) [] "addrA" 5 77 rfl rfl rfl,
    (sender_and_nonce_no_payer extW confW (mkTx [] [] [] 100 none) rfl).1 rfl⟩

/-- C5: every successfully decoded transaction carries the gas price
`totalFee / gasLimit` (integer division), promoted to one when the quotient
is zero; in particular the output never carries a zero (or absent) gas
price. -/
theorem get_txn_by_hash_gas_price (ext : Externals) (conf : ConnectionConf)
    (hash : H256) (resp : TxResponse) (tx : Tx) (info : TxnInfo)
    (htx : ext.txFromBytes resp.tx = .ok tx)
    (hsucc : get_txn_by_hash ext conf hash resp = .success info) :
    info.gas_price =
      some (if totalFee conf tx / tx.auth_info.fee.gas_limit = 0 then 1
            else totalFee conf tx / tx.auth_info.fee.gas_limit) ∧
    info.gas_price ≠ some 0 ∧ info.gas_price ≠ none := by
  simp only [get_txn_by_hash] at hsucc
  by_cases hh : resp.hash ≠ hash
  · rw [if_pos hh] at hsucc
    exact absurd hsucc (by simp)
  · rw [if_neg hh] at hsucc
    simp only [htx] at hsucc
    rcases hc : contract ext tx hash with e | caddr <;> simp only [hc] at hsucc
    · exact absurd hsucc (by simp)
    rcases hs : sender_and_nonce ext conf tx with e | sn <;>
      simp only [hs] at hsucc
    · exact absurd hsucc (by simp)
    obtain ⟨sender, nonce⟩ := sn
    rcases hr : report_unsupported_denominations conf tx hash with e | u <;>
      simp only [hr] at hsucc
    · exact absurd hsucc (by simp)
    by_cases hgl : tx.auth_info.fee.gas_limit = 0
    · rw [if_pos hgl] at hsucc
      exact absurd hsucc (by simp)
    · rw [if_neg hgl] at hsucc
      have hinfo := (DecodeOutcome.success.injEq _ _).mp hsucc
      subst hinfo
      refine ⟨rfl, ?_, by simp⟩
      by_cases hq : totalFee conf tx / tx.auth_info.fee.gas_limit = 0
      · simp [hq]
      · simp [hq]

/-- Witness for C5: gas limit 100 with total normalized fee 0 yields gas
price 1 in the decoded output. -/
theorem get_txn_by_hash_gas_price_witness :
    infoW.gas_price =
      some (if totalFee confW txGas100 / txGas100.auth_info.fee.gas_limit = 0
            then 1
            else totalFee confW txGas100 / txGas100.auth_info.fee.gas_limit) ∧
    infoW.gas_price ≠ some 0 ∧ infoW.gas_price ≠ none :=
  get_txn_by_hash_gas_price (extWithTx txGas100) confW 42 respW txGas100 infoW
    rfl rfl

/-- C10: the gas-price division is unguarded.  A transaction passing the
hash, contract, sender and denomination checks whose fee declares a zero
gas limit drives the decoder into the `U256` division-by-zero panic: no
typed decode error and no `TxnInfo` is produced, so well-definedness of the
decode entry point needs `gasLimit > 0`. -/
theorem get_txn_by_hash_zero_gas_limit (ext : Externals) (conf : ConnectionConf)
    (hash : H256) (resp : TxResponse) (tx : Tx) (caddr : H256) (sn : H256 × Nat)
    (hh : resp.hash = hash)
    (htx : ext.txFromBytes resp.tx = .ok tx)
    (hc : contract ext tx hash = .ok caddr)
    (hs : sender_and_nonce ext conf tx = .ok sn)
    (hr : report_unsupported_denominations conf tx hash = .ok ())
    (hgl : tx.auth_info.fee.gas_limit = 0) :
    get_txn_by_hash ext conf hash resp = .panicked "division by zero" ∧
    (∀ e, get_txn_by_hash ext conf hash resp ≠ .failure e) ∧
    (∀ info, get_txn_by_hash ext conf hash resp ≠ .success info) := by
  obtain ⟨sender, nonce⟩ := sn
  have h1 : get_txn_by_hash ext conf hash resp = .panicked "division by zero" := by
    simp only [get_txn_by_hash]
    rw [if_neg (by simp [hh])]
    simp only [htx, hc, hs, hr, hgl, if_pos]
  refine ⟨h1, ?_, ?_⟩
  · intro e he
    rw [h1] at he
    exact DecodeOutcome.noConfusion he
  · intro info hinfo
    rw [h1] at hinfo
    exact DecodeOutcome.noConfusion hinfo

/-- Witness for C10: a concrete transaction identical to the C5 witness but
declaring a zero gas limit reaches the division-by-zero panic. -/
theorem get_txn_by_hash_zero_gas_limit_witness :
    get_txn_by_hash (extWithTx txGas0) confW 42 respW =
      .panicked "division by zero" ∧
    (∀ e, get_txn_by_hash (extWithTx txGas0) confW 42 respW ≠ .failure e) ∧
    (∀ info, get_txn_by_hash (extWithTx txGas0) confW 42 respW ≠ .success info) :=
  get_txn_by_hash_zero_gas_limit (extWithTx txGas0) confW 42 respW txGas0 99
    (77, 5) rfl rfl rfl rfl rfl rfl

end CosmosDecoder
